import Mathlib

/-!
Verification of the nginx ingress-controller health monitor
(`src/nginx_monitor.py`) against its natural-language specification.

The embedding is shallow and executable:

* Environment-sourced configuration (`os.getenv` at module load) becomes the
  `MonitorEnv` record; a raw environment variable is an `Option String`
  (`none` = unset), and Python truthiness of such a value is `truthy`.
  The module-level global `SMTP_HOST = os.getenv("SMTP_HOST", "localhost")`
  becomes the function `SMTP_HOST`, applying the same default.
* Network effects (`requests.post`, `smtplib` send, the deployment patch
  call) are not performed; their outcome in one loop iteration is an input,
  a `World` record of `Except String Unit` values where `Except.error e`
  stands for the Python call raising exception `e`.  A Python
  `try/except Exception` block becomes a `match` on that outcome.
* `logging.info/warning/error` calls accumulate `LogEntry` values in the
  function results, in call order.
* The result of one `get_unhealthy_pods()` call inside the monitor loop is
  an input of type `Except String (List String)`: `.ok pods` is a normal
  return of the broken-pod list, `.error e` is the call raising (caught by
  the loop's `except Exception as monitor_err`).
* The unbounded `while True` loop is run over a finite list of iteration
  inputs (`run_monitor`); every theorem quantifies over all such lists, so
  every finite execution prefix of the loop is covered.
* `FAILURE_THRESHOLD = int(os.getenv("FAILURE_LIMIT", 3))` is carried as a
  natural number; the spec's data model declares the failure threshold a
  positive integer, and the theorems that need positivity hypothesise
  `1 ≤ FAILURE_THRESHOLD`.
-/

inductive LogLevel where
  | info
  | warning
  | error
deriving DecidableEq

structure LogEntry where
  level : LogLevel
  msg : String
deriving DecidableEq

/-- The environment-sourced module configuration of `nginx_monitor.py`
(lines 13-21).  `NAMESPACE` and `DEPLOYMENT_NAME` are stored with their
defaults already applied (their exact values never matter to the claims);
the notification-channel variables and `SMTP_HOST` are kept raw, as
`os.getenv` returns them, because their Python truthiness is what the
notifier functions test. -/
structure MonitorEnv where
  NAMESPACE : String
  DEPLOYMENT_NAME : String
  SLACK_HOOK_URL : Option String
  PAGERDUTY_ROUTING_KEY : Option String
  EMAIL_FROM : Option String
  EMAIL_TO : Option String
  SMTP_HOST_ENV : Option String
  FAILURE_THRESHOLD : Nat

/-- Python truthiness of an `os.getenv` result: `None` and the empty string
are falsy, every other string is truthy. -/
def truthy : Option String → Bool
  | none => false
  | some s => !(s == "")

/-- Line 19: `SMTP_HOST = os.getenv("SMTP_HOST", "localhost")` — the relay
host resolves to `"localhost"` when the variable is unset. -/
def SMTP_HOST (env : MonitorEnv) : String :=
  env.SMTP_HOST_ENV.getD "localhost"

/-- The delivery outcomes the outside world hands one loop iteration:
one per network call the iteration may make.  `.error e` models the Python
call raising exception `e`. -/
structure World where
  slack_post : Except String Unit
  smtp_send : Except String Unit
  pagerduty_post : Except String Unit
  patch_deployment : Except String Unit

/-- What one notification channel did: the log lines it emitted and whether
it attempted a delivery call at all (`false` = skipped for missing
configuration). -/
structure ChannelResult where
  log : List LogEntry
  attempted : Bool
deriving DecidableEq

/-- `notify_slack` (lines 33-40): skip with a warning when the hook URL is
not truthy, otherwise POST; a raised delivery error is caught and logged. -/
def notify_slack (env : MonitorEnv) (w : World) (_message : String) : ChannelResult :=
  if !truthy env.SLACK_HOOK_URL then
    { log := [⟨.warning, "Slack URL not set, skipping Slack notification"⟩], attempted := false }
  else
    match w.slack_post with
    | .ok _ => { log := [], attempted := true }
    | .error err => { log := [⟨.error, s!"Slack error: {err}"⟩], attempted := true }

/-- `notify_email` (lines 43-56): skip with a warning unless
`all([EMAIL_FROM, EMAIL_TO, SMTP_HOST])` — the first two raw environment
values and the already-defaulted relay host must all be truthy; otherwise
compose and send, catching and logging a raised delivery error. -/
def notify_email (env : MonitorEnv) (w : World) (_subject _body : String) : ChannelResult :=
  if !(truthy env.EMAIL_FROM && truthy env.EMAIL_TO && !(SMTP_HOST env == "")) then
    { log := [⟨.warning, "Email config incomplete, skipping email"⟩], attempted := false }
  else
    match w.smtp_send with
    | .ok _ => { log := [], attempted := true }
    | .error err => { log := [⟨.error, s!"Email error: {err}"⟩], attempted := true }

/-- `notify_pagerduty` (lines 59-75): skip with a warning when the routing
key is not truthy, otherwise POST the event payload; a raised delivery
error is caught and logged. -/
def notify_pagerduty (env : MonitorEnv) (w : World) (_message : String) : ChannelResult :=
  if !truthy env.PAGERDUTY_ROUTING_KEY then
    { log := [⟨.warning, "PagerDuty key not set, skipping notification"⟩], attempted := false }
  else
    match w.pagerduty_post with
    | .ok _ => { log := [], attempted := true }
    | .error err => { log := [⟨.error, s!"PagerDuty error: {err}"⟩], attempted := true }

/-- The result of one `notify_all_channels` call: the full log stream and
each channel's individual outcome. -/
structure NotifyResult where
  log : List LogEntry
  slack : ChannelResult
  email : ChannelResult
  pagerduty : ChannelResult
deriving DecidableEq

/-- `notify_all_channels` (lines 78-82): log the alert, then dispatch to the
three channels in sequence.  Every channel function returns normally for
every delivery outcome (each catches its own exceptions), so the fan-out
itself is a total function of the configuration and the world: no error
propagates to the caller. -/
def notify_all_channels (env : MonitorEnv) (w : World) (message : String) : NotifyResult :=
  let s := notify_slack env w message
  let e := notify_email env w "NGINX Health Alert" message
  let p := notify_pagerduty env w message
  { log := ⟨.info, s!"Alert: {message}"⟩ :: (s.log ++ e.log ++ p.log),
    slack := s, email := e, pagerduty := p }

/-- A container status as the orchestration API reports it: only the `ready`
bit is inspected by the source. -/
structure ContainerStatus where
  ready : Bool
deriving DecidableEq

structure ObjectMeta where
  name : String
deriving DecidableEq

/-- `pod.status.container_statuses` may be `None` (no status information at
all); an empty list is also Python-falsy and treated identically by the
source's `if pod.status.container_statuses:` test. -/
structure PodStatus where
  container_statuses : Option (List ContainerStatus)
deriving DecidableEq

structure Pod where
  metadata : ObjectMeta
  status : PodStatus
deriving DecidableEq

/-- An API pod-list response: the pods in API response order. -/
structure PodList where
  items : List Pod
deriving DecidableEq

/-- The entries one pod contributes to `problem_pods` in `get_unhealthy_pods`
(lines 92-96): nothing when `container_statuses` is falsy (`None` or empty,
both skipped by the `if`), otherwise the pod's name appended once per
container whose `ready` is false — the inner `for` has no break. -/
def pod_problem_entries (pod : Pod) : List String :=
  match pod.status.container_statuses with
  | none => []
  | some cs => (cs.filter (fun c => !c.ready)).map (fun _ => pod.metadata.name)

/-- `get_unhealthy_pods` (lines 87-97) applied to an API response: the
accumulated `problem_pods` list, pods traversed in response order. -/
def get_unhealthy_pods (pods : PodList) : List String :=
  pods.items.flatMap pod_problem_entries

/-- Whether a pod is unhealthy in the spec's sense: it has at least one
container whose reported readiness is false (a pod with no status
information has none, hence counts as healthy). -/
def pod_has_unready (pod : Pod) : Bool :=
  match pod.status.container_statuses with
  | none => false
  | some cs => cs.any (fun c => !c.ready)

/-- Modelled from the spec: "Returns the ordered list of unhealthy pod
names (order = API response order)" / "the inspector returns the subset of
pod names that are unhealthy, in API response order" — each unhealthy pod's
name once, in response order.  Stated from the spec's words for comparison
with `get_unhealthy_pods`, which is translated from the source. -/
def spec_unhealthy_pod_names (pods : PodList) : List String :=
  (pods.items.filter (fun pod => pod_has_unready pod)).map (fun pod => pod.metadata.name)

/-- What one `restart_nginx_controller` call did: its log lines, whether the
real patch call was issued (`False` under dry-run), and the notifier fan-out
result when one was emitted (`none` when no notification was sent). -/
structure RestartResult where
  log : List LogEntry
  patch_attempted : Bool
  notified : Option NotifyResult
deriving DecidableEq

/-- The remediation announcement message of line 101. -/
def restart_msg (env : MonitorEnv) : String :=
  let d := env.DEPLOYMENT_NAME
  let n := env.NAMESPACE
  s!"[Self-Heal] Restarting deployment {d} in namespace {n}"

/-- `restart_nginx_controller` (lines 100-126): log the announcement; under
dry-run log the skip and return before any patch is built or sent.
Otherwise issue the patch call: on success notify all channels, on a raised
patch error log it and send nothing — the `try/except` keeps the error from
propagating. -/
def restart_nginx_controller (env : MonitorEnv) (w : World) (dry_run : Bool) : RestartResult :=
  let msg := restart_msg env
  if dry_run then
    { log := [⟨.info, msg⟩, ⟨.info, "[Dry Run] Skipping actual restart"⟩],
      patch_attempted := false, notified := none }
  else
    match w.patch_deployment with
    | .ok _ =>
        let nres := notify_all_channels env w s!"Remediation triggered: {msg}"
        { log := ⟨.info, msg⟩ :: nres.log, patch_attempted := true, notified := some nres }
    | .error err =>
        { log := [⟨.info, msg⟩, ⟨.error, s!"Failed to restart: {err}"⟩],
          patch_attempted := true, notified := none }

/-- One loop iteration's inputs: what `get_unhealthy_pods()` returned (or
raised), and the delivery outcomes of any network calls the iteration makes. -/
structure IterationInput where
  poll : Except String (List String)
  world : World

/-- The observable state of the monitor loop: the `failure_count` local of
`run_monitor`, the accumulated log stream, and counters of the remediation
calls made, real patch calls issued, and notifier fan-outs emitted from
remediation. -/
structure MonitorState where
  failure_count : Nat
  log : List LogEntry
  remediations : Nat
  patches : Nat
  alerts : List NotifyResult
deriving DecidableEq

/-- The body of the `while True` loop of `run_monitor` (lines 140-156) for
one iteration.  A raised inspection error is caught by the iteration's
`except` before any counter update; a non-empty broken-pod list increments
the counter, logs the warning, and at `failure_count >= FAILURE_THRESHOLD`
calls the remediator and resets the counter; an empty list logs and resets. -/
def monitor_step (env : MonitorEnv) (dry_run : Bool) (st : MonitorState)
    (inp : IterationInput) : MonitorState :=
  match inp.poll with
  | .error e =>
      { st with log := st.log ++ [⟨.error, s!"Monitoring error: {e}"⟩] }
  | .ok [] =>
      { st with failure_count := 0,
                log := st.log ++ [⟨.info, "All NGINX pods are healthy"⟩] }
  | .ok (p :: ps) =>
      let broken_pods := p :: ps
      let c := st.failure_count + 1
      let entry : LogEntry :=
        ⟨.warning, s!"Detected unhealthy pods: {broken_pods} (failure #{c})"⟩
      if c ≥ env.FAILURE_THRESHOLD then
        let r := restart_nginx_controller env inp.world dry_run
        { failure_count := 0,
          log := st.log ++ [entry] ++ r.log,
          remediations := st.remediations + 1,
          patches := st.patches + (if r.patch_attempted then 1 else 0),
          alerts := st.alerts ++ (match r.notified with | some nres => [nres] | none => []) }
      else
        { st with failure_count := c, log := st.log ++ [entry] }

/-- The monitor loop run from a given state over a finite list of iteration
inputs (the `time.sleep` between iterations carries no state). -/
def run_monitor_from (env : MonitorEnv) (dry_run : Bool) :
    MonitorState → List IterationInput → MonitorState
  | st, [] => st
  | st, inp :: rest => run_monitor_from env dry_run (monitor_step env dry_run st inp) rest

/-- The state `run_monitor` starts its loop with (line 137-138): counter
zero, the startup log line emitted. -/
def init_state : MonitorState :=
  { failure_count := 0, log := [⟨.info, "NGINX health monitor started"⟩],
    remediations := 0, patches := 0, alerts := [] }

/-- `run_monitor` (lines 131-156) over a finite prefix of loop iterations. -/
def run_monitor (env : MonitorEnv) (dry_run : Bool) (inputs : List IterationInput) :
    MonitorState :=
  run_monitor_from env dry_run init_state inputs

/-- Classification of one poll outcome: healthy (normal return, no broken
pods). -/
def poll_is_healthy : Except String (List String) → Bool
  | .ok [] => true
  | _ => false

/-- Classification of one poll outcome: unhealthy (normal return, at least
one broken pod). -/
def poll_is_unhealthy : Except String (List String) → Bool
  | .ok (_ :: _) => true
  | _ => false

/-- Classification of one poll outcome: the inspection call raised. -/
def poll_is_exn : Except String (List String) → Bool
  | .error _ => true
  | _ => false

/-- The counter transition of one loop iteration, isolated from the logging
and remediation effects (proved to agree with `monitor_step` in
`monitor_step_failure_count`). -/
def counter_update (t : Nat) (c : Nat) : Except String (List String) → Nat
  | .error _ => c
  | .ok [] => 0
  | .ok (_ :: _) => if c + 1 ≥ t then 0 else c + 1

/-- The spec's trailing-run counter, from its words: reset on a healthy
outcome, incremented on an unhealthy one and reset at the moment remediation
triggers — which the spec puts at equality with the threshold — and left
unchanged by an inspection error. -/
def spec_trailing_step (t : Nat) (n : Nat) (p : Except String (List String)) : Nat :=
  if poll_is_healthy p then 0
  else if poll_is_unhealthy p then (if n + 1 = t then 0 else n + 1)
  else n

/-- The spec's trailing-run counter over a whole outcome sequence. -/
def spec_trailing_run (t : Nat) (ps : List (Except String (List String))) : Nat :=
  ps.foldl (spec_trailing_step t) 0

/-- The number of unhealthy outcomes since the most recent healthy outcome
(inspection errors neither count nor reset). -/
def unhealthy_since_healthy_step (n : Nat) (p : Except String (List String)) : Nat :=
  if poll_is_healthy p then 0
  else if poll_is_unhealthy p then n + 1
  else n

/-- The number of unhealthy outcomes since the most recent healthy outcome,
over a whole sequence. -/
def unhealthy_since_healthy (ps : List (Except String (List String))) : Nat :=
  ps.foldl unhealthy_since_healthy_step 0

/-- The length of the trailing run of consecutive unhealthy outcomes of a
sequence (any non-unhealthy outcome breaks the run). -/
def trailing_unhealthy_polls (ps : List (Except String (List String))) : Nat :=
  ps.foldl (fun n p => if poll_is_unhealthy p then n + 1 else 0) 0

/-- The three-way classification of one inspection outcome the claims speak
of: healthy, unhealthy, or inspection error — forgetting which pods were
broken and what the raised error said. -/
inductive PollClass where
  | healthy
  | unhealthy
  | exn
deriving DecidableEq

/-- Classify one poll outcome: a normal return with no broken pods is
healthy, a normal return with at least one broken pod is unhealthy, a
raised inspection call is an error. -/
def classify_poll : Except String (List String) → PollClass
  | .ok [] => .healthy
  | .ok (_ :: _) => .unhealthy
  | .error _ => .exn

/-! ## Concrete values for example runs and witnesses -/

/-- The default configuration: no notification channel set, threshold 3 —
what the source resolves when no environment variable is set. -/
def env_default : MonitorEnv :=
  { NAMESPACE := "ingress-nginx", DEPLOYMENT_NAME := "ingress-nginx-controller",
    SLACK_HOOK_URL := none, PAGERDUTY_ROUTING_KEY := none,
    EMAIL_FROM := none, EMAIL_TO := none, SMTP_HOST_ENV := none,
    FAILURE_THRESHOLD := 3 }

/-- A configuration with every notification channel configured. -/
def env_full : MonitorEnv :=
  { NAMESPACE := "ingress-nginx", DEPLOYMENT_NAME := "ingress-nginx-controller",
    SLACK_HOOK_URL := some "https://hooks.slack.example/T000",
    PAGERDUTY_ROUTING_KEY := some "routing-key-1",
    EMAIL_FROM := some "monitor@example.com", EMAIL_TO := some "oncall@example.com",
    SMTP_HOST_ENV := some "smtp.example.com",
    FAILURE_THRESHOLD := 3 }

/-- A world in which every network call succeeds. -/
def world_ok : World :=
  { slack_post := .ok (), smtp_send := .ok (), pagerduty_post := .ok (),
    patch_deployment := .ok () }

/-- A world in which every network call raises. -/
def world_down : World :=
  { slack_post := .error "connection refused", smtp_send := .error "relay rejected",
    pagerduty_post := .error "request timeout", patch_deployment := .error "patch forbidden" }

/-- One unhealthy poll (a broken pod observed), all calls succeeding. -/
def poll_u : IterationInput :=
  { poll := .ok ["ingress-nginx-controller-abc"], world := world_ok }

/-- One healthy poll, all calls succeeding. -/
def poll_h : IterationInput :=
  { poll := .ok [], world := world_ok }

/-- One iteration whose inspection call raises. -/
def poll_e : IterationInput :=
  { poll := .error "ApiException: 503", world := world_ok }

/-- One unhealthy poll in a world where every network call raises. -/
def poll_u_down : IterationInput :=
  { poll := .ok ["ingress-nginx-controller-abc"], world := world_down }

/-- The spec's example sequence: unhealthy, unhealthy, healthy, unhealthy,
unhealthy. -/
def seq_uuhuu : List IterationInput :=
  [poll_u, poll_u, poll_h, poll_u, poll_u]

/-- A configuration with email sender and recipient set but the mail relay
host absent from the environment. -/
def env_mail_no_host : MonitorEnv :=
  { NAMESPACE := "ingress-nginx", DEPLOYMENT_NAME := "ingress-nginx-controller",
    SLACK_HOOK_URL := none, PAGERDUTY_ROUTING_KEY := none,
    EMAIL_FROM := some "monitor@example.com", EMAIL_TO := some "oncall@example.com",
    SMTP_HOST_ENV := none,
    FAILURE_THRESHOLD := 3 }

/-- A pod with two containers, both not ready. -/
def pod_two_unready : Pod :=
  { metadata := { name := "ingress-nginx-controller-abc" },
    status := { container_statuses := some [{ ready := false }, { ready := false }] } }

/-- An API response holding just the pod with two unready containers. -/
def podlist_two_unready : PodList :=
  { items := [pod_two_unready] }

/-! ## Helper lemmas on the counter dynamics -/

theorem monitor_step_failure_count (env : MonitorEnv) (dry_run : Bool)
    (st : MonitorState) (inp : IterationInput) :
    (monitor_step env dry_run st inp).failure_count
      = counter_update env.FAILURE_THRESHOLD st.failure_count inp.poll := by
  obtain ⟨poll, w⟩ := inp
  cases poll with
  | error e => rfl
  | ok pods =>
      cases pods with
      | nil => rfl
      | cons p ps =>
          simp only [monitor_step, counter_update]
          split <;> rfl

theorem run_from_failure_count (env : MonitorEnv) (dry_run : Bool)
    (inputs : List IterationInput) (st : MonitorState) :
    (run_monitor_from env dry_run st inputs).failure_count
      = (inputs.map (fun i => i.poll)).foldl
          (counter_update env.FAILURE_THRESHOLD) st.failure_count := by
  induction inputs generalizing st with
  | nil => rfl
  | cons inp rest ih =>
      simp only [run_monitor_from, List.map_cons, List.foldl_cons]
      rw [ih, monitor_step_failure_count]

theorem foldl_counter_update_lt (t : Nat) (ht : 1 ≤ t)
    (ps : List (Except String (List String))) :
    ∀ c, c < t → ps.foldl (counter_update t) c < t := by
  induction ps with
  | nil => intro c hc; exact hc
  | cons p rest ih =>
      intro c hc
      simp only [List.foldl_cons]
      apply ih
      cases p with
      | error e => exact hc
      | ok pods =>
          cases pods with
          | nil => exact ht
          | cons q qs =>
              simp only [counter_update]
              split <;> omega

theorem counter_update_eq_spec_step (t c : Nat) (p : Except String (List String))
    (hc : c < t) :
    counter_update t c p = spec_trailing_step t c p := by
  cases p with
  | error e => simp [counter_update, spec_trailing_step, poll_is_healthy, poll_is_unhealthy]
  | ok pods =>
      cases pods with
      | nil => simp [counter_update, spec_trailing_step, poll_is_healthy]
      | cons q qs =>
          simp only [counter_update, spec_trailing_step, poll_is_healthy, poll_is_unhealthy]
          simp only [Bool.false_eq_true, if_false, if_true]
          split_ifs <;> omega

theorem counter_update_lt (t c : Nat) (p : Except String (List String))
    (ht : 1 ≤ t) (hc : c < t) :
    counter_update t c p < t := by
  cases p with
  | error e => exact hc
  | ok pods =>
      cases pods with
      | nil => exact ht
      | cons q qs =>
          simp only [counter_update]
          split <;> omega

theorem foldl_counter_update_eq_spec (t : Nat)
    (ps : List (Except String (List String))) :
    ∀ c, c < t → ps.foldl (counter_update t) c = ps.foldl (spec_trailing_step t) c := by
  induction ps with
  | nil => intro c _; rfl
  | cons p rest ih =>
      intro c hc
      have ht : 1 ≤ t := by omega
      simp only [List.foldl_cons]
      rw [← counter_update_eq_spec_step t c p hc]
      exact ih _ (counter_update_lt t c p ht hc)

theorem succ_mod_eq (t u : Nat) (ht : 0 < t) :
    (u + 1) % t = if u % t + 1 = t then 0 else u % t + 1 := by
  have h1 : (u + 1) % t = (u % t + 1) % t := by
    conv_lhs => rw [← Nat.div_add_mod u t, Nat.add_assoc, Nat.mul_add_mod]
  rw [h1]
  have h2 : u % t < t := Nat.mod_lt _ ht
  split_ifs with h3
  · rw [h3, Nat.mod_self]
  · exact Nat.mod_eq_of_lt (by omega)

theorem foldl_counter_update_mod (t : Nat) (ht : 1 ≤ t)
    (ps : List (Except String (List String))) :
    ∀ c u, c = u % t →
      ps.foldl (counter_update t) c = ps.foldl unhealthy_since_healthy_step u % t := by
  induction ps with
  | nil => intro c u hcu; exact hcu
  | cons p rest ih =>
      intro c u hcu
      simp only [List.foldl_cons]
      apply ih
      cases p with
      | error e => exact hcu
      | ok pods =>
          cases pods with
          | nil => simp [counter_update, unhealthy_since_healthy_step, poll_is_healthy]
          | cons q qs =>
              simp only [counter_update, unhealthy_since_healthy_step, poll_is_healthy,
                poll_is_unhealthy, Bool.false_eq_true, if_false, if_true]
              rw [succ_mod_eq t u (by omega)]
              have h2 : u % t < t := Nat.mod_lt _ (by omega)
              subst hcu
              split_ifs <;> omega

theorem step_fire_shape (env : MonitorEnv) (dry_run : Bool) (st : MonitorState)
    (inp : IterationInput)
    (hfire : (monitor_step env dry_run st inp).remediations = st.remediations + 1) :
    poll_is_unhealthy inp.poll = true ∧ st.failure_count + 1 ≥ env.FAILURE_THRESHOLD := by
  obtain ⟨poll, w⟩ := inp
  cases poll with
  | error e => simp only [monitor_step] at hfire; omega
  | ok pods =>
      cases pods with
      | nil => simp only [monitor_step] at hfire; omega
      | cons p ps =>
          refine ⟨rfl, ?_⟩
          simp only [monitor_step] at hfire
          by_cases h : st.failure_count + 1 ≥ env.FAILURE_THRESHOLD
          · exact h
          · rw [if_neg h] at hfire
            simp at hfire

theorem step_no_fire_shape (env : MonitorEnv) (dry_run : Bool) (st : MonitorState)
    (inp : IterationInput)
    (hnf : ¬ (poll_is_unhealthy inp.poll = true
              ∧ st.failure_count + 1 ≥ env.FAILURE_THRESHOLD)) :
    (monitor_step env dry_run st inp).remediations = st.remediations := by
  obtain ⟨poll, w⟩ := inp
  cases poll with
  | error e => rfl
  | ok pods =>
      cases pods with
      | nil => rfl
      | cons p ps =>
          simp only [poll_is_unhealthy, true_and] at hnf
          simp only [monitor_step]
          rw [if_neg hnf]

theorem foldl_counter_le_trailing (t : Nat)
    (ps : List (Except String (List String)))
    (herr : ∀ p ∈ ps, poll_is_exn p = false) :
    ∀ c n, c ≤ n →
      ps.foldl (counter_update t) c
        ≤ ps.foldl (fun n p => if poll_is_unhealthy p then n + 1 else 0) n := by
  induction ps with
  | nil => intro c n h; exact h
  | cons p rest ih =>
      intro c n h
      have hp := herr p (List.mem_cons_self p rest)
      have hrest : ∀ q ∈ rest, poll_is_exn q = false :=
        fun q hq => herr q (List.mem_cons_of_mem p hq)
      simp only [List.foldl_cons]
      cases p with
      | error e => simp [poll_is_exn] at hp
      | ok pods =>
          cases pods with
          | nil =>
              have h1 : (if poll_is_unhealthy (.ok ([] : List String)) then n + 1 else 0) = 0 := by
                simp [poll_is_unhealthy]
              rw [h1]
              exact ih hrest 0 0 (le_refl 0)
          | cons q qs =>
              have hle : counter_update t c (.ok (q :: qs)) ≤ n + 1 := by
                simp only [counter_update]; split <;> omega
              have h1 : (if poll_is_unhealthy (.ok (q :: qs)) then n + 1 else 0) = n + 1 := by
                simp [poll_is_unhealthy]
              rw [h1]
              exact ih hrest _ _ hle

/-! ## The claims -/

/-- C1: For every sequence of poll outcomes, the failure counter held by the
monitor loop after each iteration equals the length of the current trailing
run of unhealthy outcomes since the last healthy outcome or the last
remediation, with inspection-error iterations leaving it unchanged, and it
is reset to zero whenever remediation triggers at the threshold.
Formalised two ways over every finite iteration sequence (and hence after
every iteration, each prefix being such a sequence): the loop's counter
equals the spec's trailing-run fold — reset by a healthy outcome, reset at
the moment the run reaches the threshold (where remediation triggers),
untouched by inspection errors — and equivalently it equals the number of
unhealthy outcomes since the last healthy one reduced modulo the threshold,
each remediation having consumed exactly threshold-many of them. -/
theorem counter_eq_trailing_unhealthy_run (env : MonitorEnv) (dry_run : Bool)
    (inputs : List IterationInput) (ht : 1 ≤ env.FAILURE_THRESHOLD) :
    (run_monitor env dry_run inputs).failure_count
        = spec_trailing_run env.FAILURE_THRESHOLD (inputs.map (fun i => i.poll))
      ∧ (run_monitor env dry_run inputs).failure_count
        = unhealthy_since_healthy (inputs.map (fun i => i.poll)) % env.FAILURE_THRESHOLD := by
  constructor
  · rw [run_monitor, run_from_failure_count]
    exact foldl_counter_update_eq_spec env.FAILURE_THRESHOLD _ 0 (by omega)
  · rw [run_monitor, run_from_failure_count]
    exact foldl_counter_update_mod env.FAILURE_THRESHOLD ht _ 0 0 (Nat.zero_mod _).symm

/-- Witness for C1, at the spec's example sequence under the default
threshold 3. -/
theorem counter_eq_trailing_unhealthy_run_witness :
    (run_monitor env_default false seq_uuhuu).failure_count
        = spec_trailing_run 3 (seq_uuhuu.map (fun i => i.poll))
      ∧ (run_monitor env_default false seq_uuhuu).failure_count
        = unhealthy_since_healthy (seq_uuhuu.map (fun i => i.poll)) % 3 :=
  counter_eq_trailing_unhealthy_run env_default false seq_uuhuu (by decide)

/-- C2: In every reachable state at the top of a loop iteration the counter
satisfies `0 ≤ counter < threshold` (the lower bound is the type: the
counter is a natural number), the counter increases by exactly one on a
consecutive unhealthy observation that stays below the threshold,
remediation triggers exactly when the incremented counter reaches the
threshold — equality, by the invariant, although the source tests `>=` —
and the counter is reset to zero then.  Reachable states are exactly the
results of running the loop from its initial state over some finite input
sequence. -/
theorem counter_strict_invariant (env : MonitorEnv) (dry_run : Bool)
    (inputs : List IterationInput) (inp : IterationInput) (st : MonitorState)
    (ht : 1 ≤ env.FAILURE_THRESHOLD) (hst : st = run_monitor env dry_run inputs) :
    st.failure_count < env.FAILURE_THRESHOLD
    ∧ ((monitor_step env dry_run st inp).remediations = st.remediations + 1
        ↔ poll_is_unhealthy inp.poll = true
          ∧ st.failure_count + 1 = env.FAILURE_THRESHOLD)
    ∧ (poll_is_unhealthy inp.poll = true →
        st.failure_count + 1 < env.FAILURE_THRESHOLD →
        (monitor_step env dry_run st inp).failure_count = st.failure_count + 1)
    ∧ (poll_is_unhealthy inp.poll = true →
        st.failure_count + 1 = env.FAILURE_THRESHOLD →
        (monitor_step env dry_run st inp).failure_count = 0) := by
  have hlt : (run_monitor env dry_run inputs).failure_count < env.FAILURE_THRESHOLD := by
    rw [run_monitor, run_from_failure_count]
    exact foldl_counter_update_lt _ ht _ 0 (by omega)
  subst hst
  refine ⟨hlt, ⟨?_, ?_⟩, ?_, ?_⟩
  · intro hfire
    obtain ⟨hu, hge⟩ := step_fire_shape env dry_run _ inp hfire
    exact ⟨hu, by omega⟩
  · rintro ⟨hu, heq⟩
    obtain ⟨poll, w⟩ := inp
    cases poll with
    | error e => simp [poll_is_unhealthy] at hu
    | ok pods =>
        cases pods with
        | nil => simp [poll_is_unhealthy] at hu
        | cons p ps =>
            simp only [monitor_step]
            rw [if_pos (by omega)]
  · intro hu hlt2
    rw [monitor_step_failure_count]
    obtain ⟨poll, w⟩ := inp
    cases poll with
    | error e => simp [poll_is_unhealthy] at hu
    | ok pods =>
        cases pods with
        | nil => simp [poll_is_unhealthy] at hu
        | cons p ps =>
            simp only [counter_update]
            rw [if_neg (by omega)]
  · intro hu heq
    rw [monitor_step_failure_count]
    obtain ⟨poll, w⟩ := inp
    cases poll with
    | error e => simp [poll_is_unhealthy] at hu
    | ok pods =>
        cases pods with
        | nil => simp [poll_is_unhealthy] at hu
        | cons p ps =>
            simp only [counter_update]
            rw [if_pos (by omega)]

/-- Witness for C2: after one unhealthy poll under threshold 3 the counter
is 1; a second and a third unhealthy poll demonstrate the plus-one step and
the equality trigger. -/
theorem counter_strict_invariant_witness :
    (run_monitor env_default false [poll_u]).failure_count < env_default.FAILURE_THRESHOLD
    ∧ ((monitor_step env_default false (run_monitor env_default false [poll_u]) poll_u).remediations
          = (run_monitor env_default false [poll_u]).remediations + 1
        ↔ poll_is_unhealthy poll_u.poll = true
          ∧ (run_monitor env_default false [poll_u]).failure_count + 1
              = env_default.FAILURE_THRESHOLD)
    ∧ (poll_is_unhealthy poll_u.poll = true →
        (run_monitor env_default false [poll_u]).failure_count + 1 < env_default.FAILURE_THRESHOLD →
        (monitor_step env_default false (run_monitor env_default false [poll_u]) poll_u).failure_count
          = (run_monitor env_default false [poll_u]).failure_count + 1)
    ∧ (poll_is_unhealthy poll_u.poll = true →
        (run_monitor env_default false [poll_u]).failure_count + 1 = env_default.FAILURE_THRESHOLD →
        (monitor_step env_default false (run_monitor env_default false [poll_u]) poll_u).failure_count
          = 0) :=
  counter_strict_invariant env_default false [poll_u] poll_u
    (run_monitor env_default false [poll_u]) (by decide) rfl

/-- C3: Any healthy observation fully resets progress toward remediation.
First part: with threshold 3 and the outcome sequence
[unhealthy, unhealthy, healthy, unhealthy, unhealthy] remediation never
fires.  Second part: remediation fires only after threshold-many
consecutive unhealthy polls — whenever a loop iteration fires (over a run
whose iterations all returned normally, so "consecutive" reads off the raw
sequence), the firing poll is unhealthy and together with the trailing
unhealthy run before it makes at least threshold-many consecutive unhealthy
polls; cumulative or intermittent failures never fire. -/
theorem healthy_resets_remediation_progress :
    (run_monitor env_default false seq_uuhuu).remediations = 0
    ∧ ∀ (env : MonitorEnv) (dry_run : Bool) (pre_inputs : List IterationInput)
        (inp : IterationInput),
        (∀ i ∈ pre_inputs, poll_is_exn i.poll = false) →
        (monitor_step env dry_run (run_monitor env dry_run pre_inputs) inp).remediations
          = (run_monitor env dry_run pre_inputs).remediations + 1 →
        poll_is_unhealthy inp.poll = true
        ∧ env.FAILURE_THRESHOLD
            ≤ trailing_unhealthy_polls (pre_inputs.map (fun i => i.poll)) + 1 := by
  constructor
  · rfl
  · intro env dry_run pre_inputs inp herr hfire
    obtain ⟨hu, hge⟩ := step_fire_shape env dry_run _ inp hfire
    refine ⟨hu, ?_⟩
    have hcount : (run_monitor env dry_run pre_inputs).failure_count
        = (pre_inputs.map (fun i => i.poll)).foldl
            (counter_update env.FAILURE_THRESHOLD) 0 := by
      rw [run_monitor, run_from_failure_count]
      rfl
    have herr2 : ∀ p ∈ pre_inputs.map (fun i => i.poll), poll_is_exn p = false := by
      intro p hp
      obtain ⟨i, hi, rfl⟩ := List.mem_map.mp hp
      exact herr i hi
    have hle := foldl_counter_le_trailing env.FAILURE_THRESHOLD
      (pre_inputs.map (fun i => i.poll)) herr2 0 0 (le_refl 0)
    rw [← hcount] at hle
    unfold trailing_unhealthy_polls
    omega

/-- Witness for C3's second part: with threshold 3, after two consecutive
unhealthy polls a third unhealthy poll fires remediation, and indeed it is
unhealthy with a trailing unhealthy run of length 2 before it. -/
theorem healthy_resets_remediation_progress_witness :
    poll_is_unhealthy poll_u.poll = true
    ∧ env_default.FAILURE_THRESHOLD
        ≤ trailing_unhealthy_polls ([poll_u, poll_u].map (fun i => i.poll)) + 1 :=
  healthy_resets_remediation_progress.2 env_default false [poll_u, poll_u] poll_u
    (by decide) (by decide)

/-- C4: If the Cluster Inspector raises during an iteration, the error is
logged, the counter (and every other piece of loop state) is left at its
pre-iteration value, the loop proceeds to its next iteration, and a
subsequent successful healthy poll still resets the counter to 0.  The
iteration with the raising inspection call neither remediates nor patches
nor alerts. -/
theorem inspection_failure_skips_cycle (env : MonitorEnv) (dry_run : Bool)
    (st : MonitorState) (e : String) (w w2 : World) (rest : List IterationInput) :
    (monitor_step env dry_run st ⟨.error e, w⟩).failure_count = st.failure_count
    ∧ (monitor_step env dry_run st ⟨.error e, w⟩).log
        = st.log ++ [⟨.error, s!"Monitoring error: {e}"⟩]
    ∧ (monitor_step env dry_run st ⟨.error e, w⟩).remediations = st.remediations
    ∧ (monitor_step env dry_run st ⟨.error e, w⟩).patches = st.patches
    ∧ (monitor_step env dry_run st ⟨.error e, w⟩).alerts = st.alerts
    ∧ run_monitor_from env dry_run st (⟨.error e, w⟩ :: rest)
        = run_monitor_from env dry_run (monitor_step env dry_run st ⟨.error e, w⟩) rest
    ∧ (monitor_step env dry_run (monitor_step env dry_run st ⟨.error e, w⟩)
          ⟨.ok [], w2⟩).failure_count = 0 :=
  ⟨rfl, rfl, rfl, rfl, rfl, rfl, rfl⟩

/-- The counter transition of one iteration depends on the poll outcome
only through its healthy/unhealthy/error classification, never through the
broken-pod names or the raised error's text. -/
theorem counter_update_classify_congr (t c : Nat) (p q : Except String (List String))
    (h : classify_poll p = classify_poll q) :
    counter_update t c p = counter_update t c q := by
  cases p with
  | error e =>
      cases q with
      | error e2 => rfl
      | ok qs =>
          cases qs with
          | nil => simp [classify_poll] at h
          | cons x xs => simp [classify_poll] at h
  | ok ps =>
      cases ps with
      | nil =>
          cases q with
          | error e2 => simp [classify_poll] at h
          | ok qs =>
              cases qs with
              | nil => rfl
              | cons x xs => simp [classify_poll] at h
      | cons y ys =>
          cases q with
          | error e2 => simp [classify_poll] at h
          | ok qs =>
              cases qs with
              | nil => simp [classify_poll] at h
              | cons x xs => rfl

/-- The counter fold over two poll sequences with pointwise-equal
classifications is equal. -/
theorem foldl_counter_update_classify (t : Nat) :
    ∀ (psa psb : List (Except String (List String))) (c : Nat),
      psa.map classify_poll = psb.map classify_poll →
      psa.foldl (counter_update t) c = psb.foldl (counter_update t) c := by
  intro psa
  induction psa with
  | nil =>
      intro psb c h
      rw [List.map_nil] at h
      cases psb with
      | nil => rfl
      | cons q qs => simp at h
  | cons p rest ih =>
      intro psb c h
      cases psb with
      | nil => simp at h
      | cons q qs =>
          rw [List.map_cons, List.map_cons] at h
          injection h with h1 h2
          simp only [List.foldl_cons]
          rw [counter_update_classify_congr t c p q h1]
          exact ih qs _ h2

/-- C10: The failure counter's trajectory depends only on the sequence of
inspection outcomes and the threshold.  Two runs whose iterations carry the
same healthy/unhealthy/error classification pointwise — the broken-pod
names, the raised errors' texts, the dry-run flags, every delivery outcome
(patch success or failure, every notification outcome) and every
notification-channel configuration may all differ arbitrarily — have, under
equal thresholds, identical counters at the top of every iteration. -/
theorem counter_trace_noninterference (enva envb : MonitorEnv) (drya dryb : Bool)
    (inputsa inputsb : List IterationInput) (n : Nat)
    (hthr : enva.FAILURE_THRESHOLD = envb.FAILURE_THRESHOLD)
    (hclass : inputsa.map (fun i => classify_poll i.poll)
        = inputsb.map (fun i => classify_poll i.poll)) :
    (run_monitor enva drya (inputsa.take n)).failure_count
      = (run_monitor envb dryb (inputsb.take n)).failure_count := by
  rw [run_monitor, run_monitor, run_from_failure_count, run_from_failure_count, hthr]
  have h : ((inputsa.take n).map (fun i => i.poll)).map classify_poll
      = ((inputsb.take n).map (fun i => i.poll)).map classify_poll := by
    rw [List.map_map, List.map_map, List.map_take, List.map_take]
    have hclass2 : (inputsa.map (fun i => classify_poll i.poll)).take n
        = (inputsb.map (fun i => classify_poll i.poll)).take n := by
      rw [hclass]
    exact hclass2
  exact foldl_counter_update_classify envb.FAILURE_THRESHOLD _ _ _ h

/-- Witness for C10: a run observing one broken pod per unhealthy poll with
no channels configured, dry-run on and all calls succeeding, against a run
observing entirely different pod names (and a differently-worded inspection
error) fully configured, dry-run off and every network call failing — the
classifications agree pointwise, and the counters agree. -/
theorem counter_trace_noninterference_witness :
    (run_monitor env_default true ([poll_u, poll_e, poll_u].take 3)).failure_count
      = (run_monitor env_full false
          ([⟨.ok ["pod-b1", "pod-b2"], world_down⟩, ⟨.error "Timeout", world_down⟩,
            ⟨.ok ["pod-b3"], world_down⟩].take 3)).failure_count :=
  counter_trace_noninterference env_default env_full true false
    [poll_u, poll_e, poll_u]
    [⟨.ok ["pod-b1", "pod-b2"], world_down⟩, ⟨.error "Timeout", world_down⟩,
      ⟨.ok ["pod-b3"], world_down⟩] 3
    rfl rfl

/-- C5 counterexample: the claim says a dry-run remediation is "treated as
successful for the purpose of counter reset and notification"; but with
every channel configured and every call succeeding, the dry-run remediator
returns before any notification (`notified = none`), while an actual
successful remediation does notify — dry-run is treated as successful for
the counter reset only, not for notification. -/
theorem dry_run_no_notification_counterexample :
    (restart_nginx_controller env_full world_ok true).notified = none
    ∧ (restart_nginx_controller env_full world_ok false).notified.isSome = true :=
  ⟨rfl, rfl⟩

/-- C5 as amended: when dry-run is true and the counter reaches the
threshold, the remediator never issues the real deployment patch, the
attempt is logged (announcement plus the dry-run skip line), no
notification is emitted, and the loop still resets the counter to zero
without counting a patch. -/
theorem dry_run_skips_patch_still_resets (env : MonitorEnv) (st : MonitorState)
    (w : World) (p : String) (ps : List String)
    (hfire : st.failure_count + 1 ≥ env.FAILURE_THRESHOLD) :
    (restart_nginx_controller env w true).patch_attempted = false
    ∧ (restart_nginx_controller env w true).notified = none
    ∧ (restart_nginx_controller env w true).log
        = [⟨.info, restart_msg env⟩, ⟨.info, "[Dry Run] Skipping actual restart"⟩]
    ∧ (monitor_step env true st ⟨.ok (p :: ps), w⟩).failure_count = 0
    ∧ (monitor_step env true st ⟨.ok (p :: ps), w⟩).patches = st.patches := by
  refine ⟨rfl, rfl, rfl, ?_, ?_⟩
  · simp only [monitor_step]
    rw [if_pos hfire]
  · simp only [monitor_step]
    rw [if_pos hfire]
    simp [restart_nginx_controller]

/-- Witness for C5's amended theorem: counter 2, threshold 3, one more
unhealthy poll under dry-run. -/
theorem dry_run_skips_patch_still_resets_witness :
    (restart_nginx_controller env_full world_ok true).patch_attempted = false
    ∧ (restart_nginx_controller env_full world_ok true).notified = none
    ∧ (restart_nginx_controller env_full world_ok true).log
        = [⟨.info, restart_msg env_full⟩, ⟨.info, "[Dry Run] Skipping actual restart"⟩]
    ∧ (monitor_step env_full true ⟨2, [], 0, 0, []⟩
          ⟨.ok ["ingress-nginx-controller-abc"], world_ok⟩).failure_count = 0
    ∧ (monitor_step env_full true ⟨2, [], 0, 0, []⟩
          ⟨.ok ["ingress-nginx-controller-abc"], world_ok⟩).patches = 0 :=
  dry_run_skips_patch_still_resets env_full ⟨2, [], 0, 0, []⟩ world_ok
    "ingress-nginx-controller-abc" [] (by decide)

/-- C6: If the remediation patch call raises, the error is logged, no
notification is emitted through any channel (`notified = none`, and the
loop's alert list is unchanged), no error propagates out of the remediator
(it returns the logged result and the loop simply continues with the rest
of its iterations), the counter is still reset to zero, and — last two
conjuncts — a notification is emitted only when dry-run is off and the
patch call succeeded. -/
theorem remediation_failure_is_silent (env env2 : MonitorEnv) (st : MonitorState)
    (w w2 : World) (dry2 : Bool) (rest : List IterationInput)
    (p e : String) (ps : List String)
    (hfire : st.failure_count + 1 ≥ env.FAILURE_THRESHOLD)
    (hpatch : w.patch_deployment = .error e)
    (hnotif : (restart_nginx_controller env2 w2 dry2).notified.isSome = true) :
    (restart_nginx_controller env w false).notified = none
    ∧ (restart_nginx_controller env w false).log
        = [⟨.info, restart_msg env⟩, ⟨.error, s!"Failed to restart: {e}"⟩]
    ∧ (monitor_step env false st ⟨.ok (p :: ps), w⟩).failure_count = 0
    ∧ (monitor_step env false st ⟨.ok (p :: ps), w⟩).alerts = st.alerts
    ∧ run_monitor_from env false st (⟨.ok (p :: ps), w⟩ :: rest)
        = run_monitor_from env false (monitor_step env false st ⟨.ok (p :: ps), w⟩) rest
    ∧ dry2 = false ∧ w2.patch_deployment = .ok () := by
  have hr : restart_nginx_controller env w false
      = { log := [⟨.info, restart_msg env⟩, ⟨.error, s!"Failed to restart: {e}"⟩],
          patch_attempted := true, notified := none } := by
    simp [restart_nginx_controller, hpatch]
  refine ⟨by rw [hr], by rw [hr], ?_, ?_, rfl, ?_⟩
  · simp only [monitor_step]
    rw [if_pos hfire]
  · simp only [monitor_step]
    rw [if_pos hfire, hr]
    simp
  · cases dry2 with
    | false =>
        cases hw : w2.patch_deployment with
        | error e2 => simp [restart_nginx_controller, hw] at hnotif
        | ok u => cases u; exact ⟨rfl, rfl⟩
    | true => simp [restart_nginx_controller] at hnotif

/-- Witness for C6: counter 2, threshold 3, the patch call raising
"patch forbidden"; the success side instantiated with an all-ok world. -/
theorem remediation_failure_is_silent_witness :
    (restart_nginx_controller env_full world_down false).notified = none
    ∧ (restart_nginx_controller env_full world_down false).log
        = [⟨.info, restart_msg env_full⟩, ⟨.error, "Failed to restart: patch forbidden"⟩]
    ∧ (monitor_step env_full false ⟨2, [], 0, 0, []⟩
          ⟨.ok ["ingress-nginx-controller-abc"], world_down⟩).failure_count = 0
    ∧ (monitor_step env_full false ⟨2, [], 0, 0, []⟩
          ⟨.ok ["ingress-nginx-controller-abc"], world_down⟩).alerts = []
    ∧ run_monitor_from env_full false ⟨2, [], 0, 0, []⟩
          [⟨.ok ["ingress-nginx-controller-abc"], world_down⟩]
        = run_monitor_from env_full false
            (monitor_step env_full false ⟨2, [], 0, 0, []⟩
              ⟨.ok ["ingress-nginx-controller-abc"], world_down⟩) []
    ∧ false = false ∧ world_ok.patch_deployment = .ok () :=
  remediation_failure_is_silent env_full env_full ⟨2, [], 0, 0, []⟩
    world_down world_ok false [] "ingress-nginx-controller-abc" "patch forbidden" []
    (by decide) rfl rfl

/-- C7: For every message, configuration and combination of delivery
outcomes, the notify fan-out completes without raising — it is a total
function whose three channel calls each catch their own delivery errors.
Conjuncts: the fan-out's per-channel results are exactly the three
independent channel calls; an unconfigured channel is skipped with a logged
warning and attempts nothing; a configured channel whose delivery raises
logs the error, swallows it and still counts as attempted; and each
channel's result depends only on its own delivery outcome, so no channel's
absence or failure prevents any other channel's attempt. -/
theorem notify_fanout_best_effort (env : MonitorEnv) (w wb : World)
    (m e1 e2 e3 : String) :
    ((notify_all_channels env w m).slack = notify_slack env w m
      ∧ (notify_all_channels env w m).email = notify_email env w "NGINX Health Alert" m
      ∧ (notify_all_channels env w m).pagerduty = notify_pagerduty env w m)
    ∧ (truthy env.SLACK_HOOK_URL = false →
        notify_slack env w m
          = { log := [⟨.warning, "Slack URL not set, skipping Slack notification"⟩],
              attempted := false })
    ∧ (truthy env.PAGERDUTY_ROUTING_KEY = false →
        notify_pagerduty env w m
          = { log := [⟨.warning, "PagerDuty key not set, skipping notification"⟩],
              attempted := false })
    ∧ ((truthy env.EMAIL_FROM && truthy env.EMAIL_TO && !(SMTP_HOST env == "")) = false →
        notify_email env w "NGINX Health Alert" m
          = { log := [⟨.warning, "Email config incomplete, skipping email"⟩],
              attempted := false })
    ∧ (truthy env.SLACK_HOOK_URL = true → w.slack_post = .error e1 →
        notify_slack env w m
          = { log := [⟨.error, s!"Slack error: {e1}"⟩], attempted := true })
    ∧ (truthy env.PAGERDUTY_ROUTING_KEY = true → w.pagerduty_post = .error e2 →
        notify_pagerduty env w m
          = { log := [⟨.error, s!"PagerDuty error: {e2}"⟩], attempted := true })
    ∧ ((truthy env.EMAIL_FROM && truthy env.EMAIL_TO && !(SMTP_HOST env == "")) = true →
        w.smtp_send = .error e3 →
        notify_email env w "NGINX Health Alert" m
          = { log := [⟨.error, s!"Email error: {e3}"⟩], attempted := true })
    ∧ (w.slack_post = wb.slack_post → notify_slack env w m = notify_slack env wb m)
    ∧ (w.smtp_send = wb.smtp_send →
        notify_email env w "NGINX Health Alert" m
          = notify_email env wb "NGINX Health Alert" m)
    ∧ (w.pagerduty_post = wb.pagerduty_post →
        notify_pagerduty env w m = notify_pagerduty env wb m) := by
  refine ⟨⟨rfl, rfl, rfl⟩, ?_, ?_, ?_, ?_, ?_, ?_, ?_, ?_, ?_⟩
  · intro h; simp [notify_slack, h]
  · intro h; simp [notify_pagerduty, h]
  · intro h; simp only [notify_email, h]; simp
  · intro h1 h2; simp [notify_slack, h1, h2]
  · intro h1 h2; simp [notify_pagerduty, h1, h2]
  · intro h1 h2; simp only [notify_email, h1, h2]; simp
  · intro h; simp only [notify_slack, h]
  · intro h; simp only [notify_email, h]
  · intro h; simp only [notify_pagerduty, h]

/-- C8 counterexample: with sender and recipient set but the mail relay
host absent from the configuration (the environment variable unset), the
email channel is not skipped — `SMTP_HOST` silently defaults to
`"localhost"`, so the channel attempts delivery although one of the three
values is absent. -/
theorem email_enabled_without_host_counterexample :
    truthy env_mail_no_host.EMAIL_FROM = true
    ∧ truthy env_mail_no_host.EMAIL_TO = true
    ∧ env_mail_no_host.SMTP_HOST_ENV = none
    ∧ (notify_email env_mail_no_host world_ok "NGINX Health Alert" "m").attempted = true :=
  ⟨rfl, rfl, rfl, rfl⟩

/-- C8 as amended: the email channel attempts delivery exactly when the
sender, the recipient and the *resolved* relay host are all truthy, where
the relay host defaults to `"localhost"` whenever its environment variable
is absent — so absence of the relay host alone does not disable the
channel; when the condition fails the channel is skipped with a logged
warning, sending nothing. -/
theorem email_channel_enable_condition (env : MonitorEnv) (w : World) (s b : String) :
    (notify_email env w s b).attempted
      = (truthy env.EMAIL_FROM && truthy env.EMAIL_TO && !(SMTP_HOST env == ""))
    ∧ ((truthy env.EMAIL_FROM && truthy env.EMAIL_TO && !(SMTP_HOST env == "")) = false →
        notify_email env w s b
          = { log := [⟨.warning, "Email config incomplete, skipping email"⟩],
              attempted := false })
    ∧ (env.SMTP_HOST_ENV = none → SMTP_HOST env = "localhost") := by
  refine ⟨?_, ?_, ?_⟩
  · cases h : (truthy env.EMAIL_FROM && truthy env.EMAIL_TO && !(SMTP_HOST env == "")) with
    | false => simp [notify_email, h]
    | true =>
        simp only [notify_email, h]
        cases w.smtp_send <;> simp
  · intro h
    simp [notify_email, h]
  · intro h
    simp [SMTP_HOST, h]

/-- Membership in one pod's contribution to the problem-pod list: the pod's
name, and only when it has at least one unready container. -/
theorem mem_pod_problem_entries (pod : Pod) (n : String) :
    n ∈ pod_problem_entries pod
      ↔ pod.metadata.name = n ∧ pod_has_unready pod = true := by
  unfold pod_problem_entries pod_has_unready
  cases pod.status.container_statuses with
  | none => simp
  | some cs =>
      simp only [List.mem_map, List.mem_filter, List.any_eq_true]
      constructor
      · rintro ⟨c, ⟨hc, hr⟩, he⟩
        exact ⟨he, c, hc, hr⟩
      · rintro ⟨he, c, hc, hr⟩
        exact ⟨c, ⟨hc, hr⟩, he⟩

/-- A pod with no unready container (in particular one with no container
status information) contributes nothing to the problem-pod list. -/
theorem pod_problem_entries_eq_nil (pod : Pod) (h : pod_has_unready pod = false) :
    pod_problem_entries pod = [] := by
  unfold pod_has_unready at h
  unfold pod_problem_entries
  cases hcs : pod.status.container_statuses with
  | none => rfl
  | some cs =>
      rw [hcs] at h
      simp only [List.any_eq_false] at h
      simp only [List.map_eq_nil_iff, List.filter_eq_nil_iff]
      exact h

/-- An unhealthy pod's contribution starts with its own name. -/
theorem pod_problem_entries_cons (pod : Pod) (h : pod_has_unready pod = true) :
    ∃ tail, pod_problem_entries pod = pod.metadata.name :: tail := by
  cases hcs : pod.status.container_statuses with
  | none =>
      unfold pod_has_unready at h
      rw [hcs] at h
      simp at h
  | some cs =>
      have hu : cs.any (fun c => !c.ready) = true := by
        unfold pod_has_unready at h
        rw [hcs] at h
        exact h
      have hpe : pod_problem_entries pod
          = (cs.filter (fun c => !c.ready)).map (fun _ => pod.metadata.name) := by
        unfold pod_problem_entries
        rw [hcs]
      cases hf : cs.filter (fun c => !c.ready) with
      | nil =>
          exfalso
          rw [List.any_eq_true] at hu
          obtain ⟨c, hc, hr⟩ := hu
          have hm : c ∈ cs.filter (fun c => !c.ready) := List.mem_filter.mpr ⟨hc, hr⟩
          rw [hf] at hm
          exact absurd hm (List.not_mem_nil c)
      | cons c cs2 =>
          refine ⟨cs2.map (fun _ => pod.metadata.name), ?_⟩
          rw [hpe, hf, List.map_cons]

/-- The spec's once-per-pod name list embeds in order into the source's
once-per-unready-container list. -/
theorem spec_names_sublist (items : List Pod) :
    ((items.filter (fun pod => pod_has_unready pod)).map
        (fun pod => pod.metadata.name)).Sublist
      (items.flatMap pod_problem_entries) := by
  induction items with
  | nil => simp
  | cons pod rest ih =>
      rw [List.flatMap_cons]
      cases h : pod_has_unready pod with
      | false =>
          have hf : (pod :: rest).filter (fun pod => pod_has_unready pod)
              = rest.filter (fun pod => pod_has_unready pod) := by
            simp [List.filter_cons, h]
          rw [hf, pod_problem_entries_eq_nil pod h, List.nil_append]
          exact ih
      | true =>
          have hf : (pod :: rest).filter (fun pod => pod_has_unready pod)
              = pod :: rest.filter (fun pod => pod_has_unready pod) := by
            simp [List.filter_cons, h]
          obtain ⟨tail, htail⟩ := pod_problem_entries_cons pod h
          rw [hf, List.map_cons, htail, List.cons_append]
          exact (ih.trans (List.sublist_append_right tail _)).cons₂ _

/-- C9 counterexample: a pod with two unready containers appears twice in
the result — the inner loop appends the pod name once per unready container
— so the returned list is not the subset of unhealthy pod names (which
holds each name once). -/
theorem inspector_duplicates_counterexample :
    get_unhealthy_pods podlist_two_unready
        = ["ingress-nginx-controller-abc", "ingress-nginx-controller-abc"]
    ∧ spec_unhealthy_pod_names podlist_two_unready = ["ingress-nginx-controller-abc"]
    ∧ get_unhealthy_pods podlist_two_unready ≠ spec_unhealthy_pod_names podlist_two_unready :=
  ⟨rfl, rfl, by decide⟩

/-- C9 as amended: a pod's name appears in the inspector's result if and
only if the pod has at least one container whose reported readiness is
false — so a pod with no container-status information is treated as healthy
and omitted — and names appear in API response order; but a name is emitted
once per unready container rather than once per pod, so the result may hold
duplicates (the spec's once-per-pod list is an ordered sublist of it). -/
theorem inspector_membership_and_order (pods : PodList) (n : String) :
    (n ∈ get_unhealthy_pods pods
      ↔ ∃ pod ∈ pods.items, pod.metadata.name = n ∧ pod_has_unready pod = true)
    ∧ (spec_unhealthy_pod_names pods).Sublist (get_unhealthy_pods pods) := by
  constructor
  · rw [get_unhealthy_pods]
    simp only [List.mem_flatMap]
    constructor
    · rintro ⟨pod, hp, hn⟩
      obtain ⟨he, hu⟩ := (mem_pod_problem_entries pod n).mp hn
      exact ⟨pod, hp, he, hu⟩
    · rintro ⟨pod, hp, he, hu⟩
      exact ⟨pod, hp, (mem_pod_problem_entries pod n).mpr ⟨he, hu⟩⟩
  · exact spec_names_sublist pods.items
